import Mathlib

/-!
Shallow embedding of the response-decoding layer of the `roli` crate
(a Rolimons.com API wrapper).  Pure decoding functions of the source are
translated directly; Rust `Result` values and panics (`todo!()`, index
out of bounds on `Vec`) are modelled by the `Outcome` type below.
Machine integers (`i64`, `u64`, `u8`) are modelled as `Int`/`Nat` with
explicit reinterpretation modulo `2^64` where the source casts.
-/

/-- The universal error enum of the crate (`RoliError` in `src/lib.rs`).
the payload of `ReqwestError` is irrelevant to decoding and is dropped. -/
inductive RoliError where
  | RequestReturnedUnsuccessful
  | TooManyRequests
  | InternalServerError
  | MalformedResponse
  | RoliVerificationContainsInvalidCharacters
  | RoliVerificationInvalidOrExpired
  | RoliVerificationNotSet
  | CooldownNotExpired
  | UnidentifiedStatusCode (code : Nat)
  | ReqwestError
deriving DecidableEq, Repr

/-- Result of a Rust computation that can also panic (`todo!()`,
out-of-bounds `Vec` indexing).  `ok`/`err` mirror `Result::Ok`/`Err`. -/
inductive Outcome (α : Type) where
  | ok (a : α)
  | err (e : RoliError)
  | panic
deriving DecidableEq, Repr

/-- Monadic bind on `Outcome`, mirroring the `?` operator of Rust; a panic
propagates. -/
def Outcome.bind {α β : Type} : Outcome α → (α → Outcome β) → Outcome β
  | .ok a, f => f a
  | .err e, _ => .err e
  | .panic, _ => .panic

instance : Monad Outcome where
  pure := Outcome.ok
  bind := Outcome.bind

@[simp] theorem Outcome.ok_bind {α β : Type} (a : α) (f : α → Outcome β) :
    Outcome.bind (Outcome.ok a) f = f a := rfl

@[simp] theorem Outcome.err_bind {α β : Type} (e : RoliError) (f : α → Outcome β) :
    Outcome.bind (Outcome.err e) f = Outcome.err e := rfl

@[simp] theorem Outcome.panic_bind {α β : Type} (f : α → Outcome β) :
    Outcome.bind Outcome.panic f = Outcome.panic := rfl

@[simp] theorem Outcome.bind_eq {α β : Type} (x : Outcome α) (f : α → Outcome β) :
    x >>= f = Outcome.bind x f := rfl

@[simp] theorem Outcome.pure_eq {α : Type} (a : α) : (pure a : Outcome α) = Outcome.ok a := rfl

/-- Rust `Vec` indexing `xs[i]`: panics when the index is out of bounds. -/
def vecIndex {α : Type} (xs : List α) (i : Nat) : Outcome α :=
  match xs.get? i with
  | some a => Outcome.ok a
  | none => Outcome.panic

@[simp] theorem vecIndex_cons_zero {α : Type} (x : α) (xs : List α) :
    vecIndex (x :: xs) 0 = Outcome.ok x := rfl

@[simp] theorem vecIndex_cons_succ {α : Type} (x : α) (xs : List α) (i : Nat) :
    vecIndex (x :: xs) (i + 1) = vecIndex xs i := rfl

@[simp] theorem vecIndex_nil {α : Type} (i : Nat) :
    vecIndex ([] : List α) i = Outcome.panic := rfl

/-- Source `i64::MAX`. -/
def I64MAX : Int := 2 ^ 63 - 1
/-- Source `i64::MIN`. -/
def I64MIN : Int := -(2 ^ 63)
/-- Source `u64::MAX`. -/
def U64MAX : Int := 2 ^ 64 - 1

/-- The Rust call `char::to_digit(10)` succeeds exactly on the ASCII digits 0 to 9. -/
def isDig (c : Char) : Bool := 48 ≤ c.toNat && c.toNat ≤ 57

/-- One checked accumulation loop of the Rust integer `from_str`
(radix 10, non-negative accumulator, checked against `bound`):
`acc = acc * 10 + digit`, failing on overflow or a non-digit. -/
def parseDigLoop (bound : Int) : List Char → Int → Option Int
  | [], acc => some acc
  | c :: cs, acc =>
      if isDig c then
        let a : Int := 10 * acc + ((c.toNat : Int) - 48)
        if bound < a then none else parseDigLoop bound cs a
      else none

/-- The negative-accumulator loop of the Rust function `i64::from_str`:
`acc = acc * 10 - digit`, checked against `i64::MIN`. -/
def parseNegLoop : List Char → Int → Option Int
  | [], acc => some acc
  | c :: cs, acc =>
      if isDig c then
        let a : Int := 10 * acc - ((c.toNat : Int) - 48)
        if a < I64MIN then none else parseNegLoop cs a
      else none

/-- The Rust call `str::parse` at `i64`: an optional sign followed by at least
one ASCII digit, with checked (overflow-rejecting) accumulation. -/
def parseI64 (s : String) : Option Int :=
  match s.data with
  | [] => none
  | c :: rest =>
      if c = '+' then
        if rest = [] then none else parseDigLoop I64MAX rest 0
      else if c = '-' then
        if rest = [] then none else parseNegLoop rest 0
      else
        parseDigLoop I64MAX s.data 0

/-- The Rust call `str::parse` at `u64`: an optional `'+'` followed by at least
one ASCII digit, with checked accumulation against `u64::MAX`. -/
def parseU64 (s : String) : Option Int :=
  match s.data with
  | [] => none
  | c :: rest =>
      if c = '+' then
        if rest = [] then none else parseDigLoop U64MAX rest 0
      else
        parseDigLoop U64MAX s.data 0

/-- The Rust cast `x as u64` on an `i64` value: twos-complement
reinterpretation modulo `2^64`. -/
def asU64 (x : Int) : Nat := (x % 2 ^ 64).toNat

/-- The Rust cast `n as i64` on a `u64` value: twos-complement
reinterpretation back into the signed range. -/
def toI64ofU64 (n : Nat) : Int :=
  if (n : Int) % 2 ^ 64 < 2 ^ 63 then (n : Int) % 2 ^ 64 else (n : Int) % 2 ^ 64 - 2 ^ 64

/-- Wrapping (release-mode) `i64` arithmetic: reduce an exact integer
result into `[-2^63, 2^63)`. -/
def wrapI64 (x : Int) : Int := (x + 2 ^ 63) % 2 ^ 64 - 2 ^ 63

/-- The `Code` untagged union of `src/lib.rs`: a wire scalar that is
either a JSON integer (an `i64`) or a string. -/
inductive Code where
  | Integer (x : Int)
  /-- Named `Code::String` in the source; `Str` here so that the
  constructor does not shadow the string type of Lean. -/
  | Str (s : String)
deriving DecidableEq, Repr

/-- Source `Code::to_i64` (`src/lib.rs` lines 134-139): an integer is returned
directly; a string is parsed as a base-10 `i64`, any parse failure
becoming `MalformedResponse`. -/
def Code.to_i64 : Code → Outcome Int
  | .Integer x => Outcome.ok x
  | .Str s =>
      match parseI64 s with
      | some v => Outcome.ok v
      | none => Outcome.err RoliError.MalformedResponse

/-- The `Display` implementation for `Code` (`src/lib.rs` lines 142-149),
used by the `.to_string()` calls of the decoders: integers render in decimal,
strings render as themselves. -/
def Code.display : Code → String
  | .Integer x => toString x
  | .Str s => s

/- ## Spec-side characterisation of valid base-10 `i64` strings
(check-free, used to state what `parseI64` accepts). -/

/-- The plain (unchecked) base-10 value of a digit list, most
significant digit first. -/
def digitsVal (cs : List Char) : Int :=
  cs.foldl (fun a c => 10 * a + ((c.toNat : Int) - 48)) 0

/-- A non-empty all-digit character list. -/
def allDigits (cs : List Char) : Bool := !cs.isEmpty && cs.all isDig

/-- A string that the Rust `i64` grammar accepts: optional sign, at least
one digit, and a value within the `i64` range. -/
def validI64String (s : String) : Bool :=
  match s.data with
  | [] => false
  | c :: rest =>
      if c = '+' then allDigits rest && digitsVal rest ≤ I64MAX
      else if c = '-' then allDigits rest && I64MIN ≤ -(digitsVal rest)
      else allDigits s.data && digitsVal s.data ≤ I64MAX

/-- The numeric value denoted by a valid `i64` string. -/
def i64StringVal (s : String) : Int :=
  match s.data with
  | [] => 0
  | c :: rest =>
      if c = '+' then digitsVal rest
      else if c = '-' then -(digitsVal rest)
      else digitsVal s.data

/- ## Entity decoders (Positional Record Decoders) -/

/-- Source `PriceUpdate` (`src/deals.rs`); all fields are `u64`. -/
structure PriceUpdate where
  timestamp : Nat
  item_id : Nat
  price : Nat
deriving DecidableEq, Repr

/-- Source `RapUpdate` (`src/deals.rs`); all fields are `u64`. -/
structure RapUpdate where
  timestamp : Nat
  item_id : Nat
  rap : Nat
deriving DecidableEq, Repr

/-- Source `Activity` (`src/deals.rs`): either a price update or a rap update. -/
inductive Activity where
  | PriceUpdate (p : PriceUpdate)
  | RapUpdate (r : RapUpdate)
deriving DecidableEq, Repr

/-- Source `Activity::from_raw` (`src/deals.rs` lines 47-102): a 5-slot array;
slot 1 (0-based) is the discriminator (`0` selects a price update),
slots 0, 2 and 4 are timestamp, item id and price/rap, each converted
through `to_i64` and cast `as u64`.  Reads happen in source order:
discriminator, timestamp, item id, then the fifth slot. -/
def Activity.from_raw (codes : List Code) : Outcome Activity :=
  if codes.length ≠ 5 then Outcome.err RoliError.MalformedResponse
  else do
    let c1 ← vecIndex codes 1
    let d ← c1.to_i64
    let is_price_update := d == 0
    let c0 ← vecIndex codes 0
    let t ← c0.to_i64
    let timestamp := asU64 t
    let c2 ← vecIndex codes 2
    let i ← c2.to_i64
    let item_id := asU64 i
    if is_price_update then do
      let c4 ← vecIndex codes 4
      let p ← c4.to_i64
      Outcome.ok (Activity.PriceUpdate ⟨timestamp, item_id, asU64 p⟩)
    else do
      let c4 ← vecIndex codes 4
      let r ← c4.to_i64
      Outcome.ok (Activity.RapUpdate ⟨timestamp, item_id, asU64 r⟩)

/-- Source `Sale` (`src/market_activity.rs`); all fields are `u64`. -/
structure Sale where
  item_id : Nat
  old_rap : Nat
  new_rap : Nat
  sale_price : Nat
  sale_id : Nat
  timestamp : Nat
deriving DecidableEq, Repr

/-- Source `calculate_sale_price` (`src/market_activity.rs` lines 138-151):
zero old rap means the new rap is the price; otherwise the signed
formula `10 * (new - old) + old` is computed in (wrapping) `i64`
arithmetic and cast `as u64`. -/
def calculate_sale_price (old_rap new_rap : Nat) : Nat :=
  if old_rap = 0 then new_rap
  else
    let change := wrapI64 (toI64ofU64 new_rap - toI64ofU64 old_rap)
    let price := wrapI64 (10 * change + toI64ofU64 old_rap)
    asU64 price

/-- Source `Sale::from_raw` (`src/market_activity.rs` lines 34-72): a 6-slot
array; slot 1 is an activity-type code that must equal 1; the remaining
slots are timestamp, item id, old rap, new rap and sale id, each
converted through `to_i64` and cast `as u64`; the sale price is derived
by `calculate_sale_price`. -/
def Sale.from_raw (codes : List Code) : Outcome Sale :=
  if codes.length ≠ 6 then Outcome.err RoliError.MalformedResponse
  else do
    let c1 ← vecIndex codes 1
    let a ← c1.to_i64
    let activity_type := asU64 a
    if activity_type ≠ 1 then Outcome.err RoliError.MalformedResponse
    else do
      let c0 ← vecIndex codes 0
      let t ← c0.to_i64
      let timestamp := asU64 t
      let c2 ← vecIndex codes 2
      let i ← c2.to_i64
      let item_id := asU64 i
      let c3 ← vecIndex codes 3
      let o ← c3.to_i64
      let old_rap := asU64 o
      let c4 ← vecIndex codes 4
      let n ← c4.to_i64
      let new_rap := asU64 n
      let sale_price := calculate_sale_price old_rap new_rap
      let c5 ← vecIndex codes 5
      let s ← c5.to_i64
      let sale_id := asU64 s
      Outcome.ok ⟨item_id, old_rap, new_rap, sale_price, sale_id, timestamp⟩

/-- Source `Demand` (`src/items.rs`). -/
inductive Demand where
  | Unassigned | Terrible | Low | Normal | High | Amazing
deriving DecidableEq, Repr

/-- Source `Trend` (`src/items.rs`). -/
inductive Trend where
  | Unassigned | Lowering | Unstable | Stable | Raising | Fluctuating
deriving DecidableEq, Repr

/-- The demand code table of `ItemDetails::from_raw`
(`src/items.rs` lines 99-107). -/
def demandOfCode (d : Int) : Outcome Demand :=
  if d = -1 then Outcome.ok Demand.Unassigned
  else if d = 0 then Outcome.ok Demand.Terrible
  else if d = 1 then Outcome.ok Demand.Low
  else if d = 2 then Outcome.ok Demand.Normal
  else if d = 3 then Outcome.ok Demand.High
  else if d = 4 then Outcome.ok Demand.Amazing
  else Outcome.err RoliError.MalformedResponse

/-- The trend code table of `ItemDetails::from_raw`
(`src/items.rs` lines 109-117). -/
def trendOfCode (t : Int) : Outcome Trend :=
  if t = -1 then Outcome.ok Trend.Unassigned
  else if t = 0 then Outcome.ok Trend.Lowering
  else if t = 1 then Outcome.ok Trend.Unstable
  else if t = 2 then Outcome.ok Trend.Stable
  else if t = 3 then Outcome.ok Trend.Raising
  else if t = 4 then Outcome.ok Trend.Fluctuating
  else Outcome.err RoliError.MalformedResponse

/-- The `1 => true, -1 => false, _ => MalformedResponse` match used for
the `projected`, `hyped` and `rare` slots (`src/items.rs` lines
119-135). -/
def boolPairOfCode (v : Int) : Outcome Bool :=
  if v = 1 then Outcome.ok true
  else if v = -1 then Outcome.ok false
  else Outcome.err RoliError.MalformedResponse

/-- Source `ItemDetails` (`src/items.rs`). -/
structure ItemDetails where
  item_id : Nat
  item_name : String
  acronym : Option String
  rap : Nat
  valued : Bool
  value : Nat
  demand : Demand
  trend : Trend
  projected : Bool
  hyped : Bool
  rare : Bool
deriving DecidableEq, Repr

/-- Source `ItemDetails::from_raw` (`src/items.rs` lines 80-150).  Note that
the source performs NO arity check: it indexes `codes[0]` through
`codes[9]` directly (panicking when the array is shorter), the empty
string in slot 1 meaning no acronym, `valued` decoded as `!= -1`, the
demand/trend/boolean-pair tables applied to slots 5-9. -/
def ItemDetails.from_raw (item_id : Nat) (codes : List Code) : Outcome ItemDetails := do
  let c0 ← vecIndex codes 0
  let item_name := c0.display
  let c1 ← vecIndex codes 1
  let acronym := if c1.display = "" then none else some c1.display
  let c2 ← vecIndex codes 2
  let r ← c2.to_i64
  let rap := asU64 r
  let c3 ← vecIndex codes 3
  let vl ← c3.to_i64
  let valued := vl ≠ -1
  let c4 ← vecIndex codes 4
  let v ← c4.to_i64
  let value := asU64 v
  let c5 ← vecIndex codes 5
  let dc ← c5.to_i64
  let demand ← demandOfCode dc
  let c6 ← vecIndex codes 6
  let tc ← c6.to_i64
  let trend ← trendOfCode tc
  let c7 ← vecIndex codes 7
  let pc ← c7.to_i64
  let projected ← boolPairOfCode pc
  let c8 ← vecIndex codes 8
  let hc ← c8.to_i64
  let hyped ← boolPairOfCode hc
  let c9 ← vecIndex codes 9
  let rc ← c9.to_i64
  let rare ← boolPairOfCode rc
  Outcome.ok ⟨item_id, item_name, acronym, rap, valued, value, demand, trend, projected, hyped, rare⟩

/-- Source `Game` (`src/games.rs`). -/
structure Game where
  id : Nat
  name : String
  players_active : Nat
  thumbnail_url : String
deriving DecidableEq, Repr

/-- The per-entry decoding loop body of `Client::games_list`
(`src/games.rs` lines 80-99): the string key must parse as a `u64`
(else `MalformedResponse`), then slots 0-2 are read by direct indexing
with NO arity check (panicking on a shorter array). -/
def gameDecodeEntry (id_string : String) (game : List Code) : Outcome Game := do
  let id ← match parseU64 id_string with
    | some x => Outcome.ok (Int.toNat x)
    | none => Outcome.err RoliError.MalformedResponse
  let c0 ← vecIndex game 0
  let name := c0.display
  let c1 ← vecIndex game 1
  let players_active ← match c1.to_i64 with
    | Outcome.ok x => Outcome.ok (asU64 x)
    | Outcome.err _ => Outcome.err RoliError.MalformedResponse
    | Outcome.panic => Outcome.panic
  let c2 ← vecIndex game 2
  let thumbnail_url := c2.display
  Outcome.ok ⟨id, name, players_active, thumbnail_url⟩

/-- Source `GroupSearchResult` (`src/groups.rs`). -/
structure GroupSearchResult where
  id : Nat
  name : String
  member_count : Nat
  thumbnail_url : String
deriving DecidableEq, Repr

/-- Source `GroupSearchResult::from_raw` (`src/groups.rs` lines 32-68): a
7-slot array; slots 0, 1, 5 and 6 are id, name, member count and
thumbnail url; slots 2-4 are read-and-discarded. -/
def GroupSearchResult.from_raw (codes : List Code) : Outcome GroupSearchResult :=
  if codes.length ≠ 7 then Outcome.err RoliError.MalformedResponse
  else do
    let c0 ← vecIndex codes 0
    let i ← c0.to_i64
    let id := asU64 i
    let c1 ← vecIndex codes 1
    let name := c1.display
    let c5 ← vecIndex codes 5
    let m ← c5.to_i64
    let member_count := asU64 m
    let c6 ← vecIndex codes 6
    let thumbnail_url := c6.display
    Outcome.ok ⟨id, name, member_count, thumbnail_url⟩

/-- Source `PlayerSearchResult` (`src/players.rs`). -/
structure PlayerSearchResult where
  user_id : Nat
  username : String
deriving DecidableEq, Repr

/-- Source `PlayerSearchResult::from_raw` (`src/players.rs` lines 122-131):
accepts arrays of length 2 or 3 (the third slot is unused). -/
def PlayerSearchResult.from_raw (codes : List Code) : Outcome PlayerSearchResult :=
  if codes.length ≠ 2 ∧ codes.length ≠ 3 then Outcome.err RoliError.MalformedResponse
  else do
    let c0 ← vecIndex codes 0
    let u ← c0.to_i64
    let user_id := asU64 u
    let c1 ← vecIndex codes 1
    let username := c1.display
    Outcome.ok ⟨user_id, username⟩

/-- Source `RequestTag` (`src/trade_ads.rs`). -/
inductive RequestTag where
  | Any | Demand | Rares | Robux | Upgrade | Downgrade | Rap | Wishlist | Projecteds | Adds
deriving DecidableEq, Repr

/-- Source `TryFrom<u8> for RequestTag` (`src/trade_ads.rs` lines 30-48); the
wire tag is a `u8`, modelled as a `Nat` below 256. -/
def RequestTag.try_from (value : Nat) : Outcome RequestTag :=
  if value = 1 then Outcome.ok RequestTag.Demand
  else if value = 2 then Outcome.ok RequestTag.Rares
  else if value = 3 then Outcome.ok RequestTag.Robux
  else if value = 4 then Outcome.ok RequestTag.Any
  else if value = 5 then Outcome.ok RequestTag.Upgrade
  else if value = 6 then Outcome.ok RequestTag.Downgrade
  else if value = 7 then Outcome.ok RequestTag.Rap
  else if value = 8 then Outcome.ok RequestTag.Wishlist
  else if value = 9 then Outcome.ok RequestTag.Projecteds
  else if value = 10 then Outcome.ok RequestTag.Adds
  else Outcome.err RoliError.MalformedResponse

/-- Source `Request` (`src/trade_ads.rs`): the request side of a trade ad. -/
structure Request where
  items : List Nat
  tags : List RequestTag
deriving DecidableEq, Repr

/-- Source `RequestRaw` (`src/trade_ads.rs`): wire form of a request, its tags
still small integer codes. -/
structure RequestRaw where
  tags : List Nat
  items : List Nat
deriving DecidableEq, Repr

/-- The short-circuiting `for`-loop-with-`?` pattern used by every
batch decode: stop at the first error (or panic), otherwise collect
results in order. -/
def mapOutcome {α β : Type} (f : α → Outcome β) : List α → Outcome (List β)
  | [] => Outcome.ok []
  | x :: xs =>
      match f x with
      | Outcome.ok b =>
          match mapOutcome f xs with
          | Outcome.ok bs => Outcome.ok (b :: bs)
          | Outcome.err e => Outcome.err e
          | Outcome.panic => Outcome.panic
      | Outcome.err e => Outcome.err e
      | Outcome.panic => Outcome.panic

/-- Source `TryFrom<RequestRaw> for Request` (`src/trade_ads.rs` lines 85-100):
translate every tag code, failing the whole request on the first
out-of-table code. -/
def Request.try_from (value : RequestRaw) : Outcome Request := do
  let tags ← mapOutcome RequestTag.try_from value.tags
  Outcome.ok ⟨value.items, tags⟩

/-- Source `Offer` (`src/trade_ads.rs`). -/
structure Offer where
  items : List Nat
  robux : Option Nat
deriving DecidableEq, Repr

/-- Source `TradeAd` (`src/trade_ads.rs`). -/
structure TradeAd where
  trade_id : Nat
  timestamp : Nat
  user_id : Nat
  username : String
  offer : Offer
  request : Request
deriving DecidableEq, Repr

/- ## Envelope & status validator: per-endpoint response handling.
Each handler takes the transport status code and the result of parsing
the body as the raw response type of the endpoint (`ParseResult.failed`
standing for a serde error) and produces what the endpoint returns. -/

/-- Result of `response.json::<T>()`: either the parsed value or a serde
failure. -/
inductive ParseResult (α : Type) where
  | ok (a : α)
  | failed
deriving DecidableEq, Repr

/-- Source `DealsActivityResponse` (`src/deals.rs` lines 106-110). -/
structure DealsActivityResponse where
  success : Bool
  activities : List (List Code)
deriving DecidableEq, Repr

/-- The response handling of `Client::deals_activity` (`src/deals.rs`
lines 131-157): on 200 the activities of the parsed body are decoded one by
one (the `success` flag is never inspected); every other status code
hits a literal `todo!()`, i.e. panics. -/
def dealsActivityHandle (status : Nat) (body : ParseResult DealsActivityResponse) :
    Outcome (List Activity) :=
  match status with
  | 200 =>
      match body with
      | .failed => Outcome.err RoliError.MalformedResponse
      | .ok raw => mapOutcome Activity.from_raw raw.activities
  | _ => Outcome.panic

/-- Source `AllItemDetailsResponse` (`src/items.rs` lines 72-77); the
`HashMap<String, Vec<Code>>` is modelled as an association list. -/
structure AllItemDetailsResponse where
  success : Bool
  item_count : Nat
  items : List (String × List Code)
deriving DecidableEq, Repr

/-- Source `AllItemDetailsResponse::into_vec` (`src/items.rs` lines 153-170):
each key must parse as a `u64`, then the entry is decoded, the first
failure aborting the whole collection. -/
def AllItemDetailsResponse.into_vec (r : AllItemDetailsResponse) : Outcome (List ItemDetails) :=
  mapOutcome
    (fun e =>
      match parseU64 e.1 with
      | some id => ItemDetails.from_raw (Int.toNat id) e.2
      | none => Outcome.err RoliError.MalformedResponse)
    r.items

/-- The response handling of `Client::all_item_details` (`src/items.rs`
lines 201-222): on 200 the parsed body is converted by `into_vec`
(the `success` flag is never inspected); 429, 500 and other statuses map
to `TooManyRequests`, `InternalServerError` and
`UnidentifiedStatusCode`. -/
def allItemDetailsHandle (status : Nat) (body : ParseResult AllItemDetailsResponse) :
    Outcome (List ItemDetails) :=
  match status with
  | 200 =>
      match body with
      | .failed => Outcome.err RoliError.MalformedResponse
      | .ok raw => raw.into_vec
  | 429 => Outcome.err RoliError.TooManyRequests
  | 500 => Outcome.err RoliError.InternalServerError
  | _ => Outcome.err (RoliError.UnidentifiedStatusCode status)

/-- Source `RecentSalesResponse` (`src/market_activity.rs` lines 8-13). -/
structure RecentSalesResponse where
  success : Bool
  activities : List (List Code)
  activities_count : Nat
deriving DecidableEq, Repr

/-- The response handling of `Client::recent_sales`
(`src/market_activity.rs` lines 104-134): on 200 a false `success` flag
yields `RequestReturnedUnsuccessful` before any sale is decoded. -/
def recentSalesHandle (status : Nat) (body : ParseResult RecentSalesResponse) :
    Outcome (List Sale) :=
  match status with
  | 200 =>
      match body with
      | .failed => Outcome.err RoliError.MalformedResponse
      | .ok raw =>
          if !raw.success then Outcome.err RoliError.RequestReturnedUnsuccessful
          else mapOutcome Sale.from_raw raw.activities
  | 429 => Outcome.err RoliError.TooManyRequests
  | 500 => Outcome.err RoliError.InternalServerError
  | _ => Outcome.err (RoliError.UnidentifiedStatusCode status)

/-- Source `RecentTradeAdsResponse` (`src/trade_ads.rs` lines 102-111). -/
structure RecentTradeAdsResponse where
  success : Bool
  trade_ad_count : Nat
  trade_ads : List (Nat × Nat × Nat × String × Offer × RequestRaw)
deriving DecidableEq, Repr

/-- The response handling of `Client::recent_trade_ads`
(`src/trade_ads.rs` lines 313-350): on 200 each raw request is
translated (the `success` flag is never inspected). -/
def recentTradeAdsHandle (status : Nat) (body : ParseResult RecentTradeAdsResponse) :
    Outcome (List TradeAd) :=
  match status with
  | 200 =>
      match body with
      | .failed => Outcome.err RoliError.MalformedResponse
      | .ok raw =>
          mapOutcome
            (fun e =>
              match Request.try_from e.2.2.2.2.2 with
              | Outcome.ok request =>
                  Outcome.ok (⟨e.1, e.2.1, e.2.2.1, e.2.2.2.1, e.2.2.2.2.1, request⟩ : TradeAd)
              | Outcome.err er => Outcome.err er
              | Outcome.panic => Outcome.panic)
            raw.trade_ads
  | 429 => Outcome.err RoliError.TooManyRequests
  | 500 => Outcome.err RoliError.InternalServerError
  | _ => Outcome.err (RoliError.UnidentifiedStatusCode status)

/-- Source `GamesListResponse` (`src/games.rs` lines 9-14). -/
structure GamesListResponse where
  success : Bool
  game_count : Int
  games : List (String × List Code)
deriving DecidableEq, Repr

/-- The response handling of `Client::games_list` (`src/games.rs` lines
63-110): on 200 a false `success` flag yields
`RequestReturnedUnsuccessful`, otherwise each map entry is decoded by
`gameDecodeEntry`. -/
def gamesListHandle (status : Nat) (body : ParseResult GamesListResponse) :
    Outcome (List Game) :=
  match status with
  | 200 =>
      match body with
      | .failed => Outcome.err RoliError.MalformedResponse
      | .ok raw =>
          if !raw.success then Outcome.err RoliError.RequestReturnedUnsuccessful
          else mapOutcome (fun e => gameDecodeEntry e.1 e.2) raw.games
  | 429 => Outcome.err RoliError.TooManyRequests
  | 500 => Outcome.err RoliError.InternalServerError
  | _ => Outcome.err (RoliError.UnidentifiedStatusCode status)

/-- The status-code match of `Client::create_trade_ad`
(`src/trade_ads.rs` lines 216-229): 201 is success, 400 is
`CooldownNotExpired`, 422 is `RoliVerificationInvalidOrExpired`, 429 is
`TooManyRequests`, everything else (including 500) is
`UnidentifiedStatusCode`. -/
def createTradeAdStatus (status : Nat) : Outcome Unit :=
  match status with
  | 201 => Outcome.ok ()
  | 400 => Outcome.err RoliError.CooldownNotExpired
  | 422 => Outcome.err RoliError.RoliVerificationInvalidOrExpired
  | 429 => Outcome.err RoliError.TooManyRequests
  | _ => Outcome.err (RoliError.UnidentifiedStatusCode status)

/- ## `create_trade_ad` pre-flight (header construction) -/

/-- Validity of one byte of an HTTP header value, as checked by
`HeaderValue::from_str` (the `http` crate): visible ASCII and obs-text
bytes plus horizontal tab. -/
def headerValueByteValid (b : Nat) : Bool := (32 ≤ b && b ≠ 127) || b == 9

/-- The UTF-8 bytes of the literal cookie name `"_RoliVerification="`
prepended to the token by `format!` in `create_trade_ad`. -/
def cookieNameBytes : List Nat :=
  [95, 82, 111, 108, 105, 86, 101, 114, 105, 102, 105, 99, 97, 116, 105, 111, 110, 61]

/-- The client state relevant to `create_trade_ad`: the optional
`roli_verification` token, modelled as its UTF-8 byte sequence. -/
structure RClient where
  roli_verification : Option (List Nat)
deriving DecidableEq, Repr

/-- What `create_trade_ad` does before any network activity. -/
inductive TradeAdStart where
  /-- The function returns this error without sending a request. -/
  | earlyReturn (e : RoliError)
  /-- The function proceeds to send the POST request. -/
  | sendsRequest
deriving DecidableEq, Repr

/-- The pre-flight phase of `Client::create_trade_ad`
(`src/trade_ads.rs` lines 189-206): with no token set the method
returns `RoliVerificationNotSet` before sending anything; with a token
whose cookie rendering is not a valid header value it returns
`RoliVerificationContainsInvalidCharacters` before sending anything.
The client is behind `&self` and is returned unchanged. -/
def create_trade_ad_start (c : RClient) : RClient × TradeAdStart :=
  (c,
    match c.roli_verification with
    | none => TradeAdStart.earlyReturn RoliError.RoliVerificationNotSet
    | some rv =>
        if (cookieNameBytes ++ rv).all headerValueByteValid then TradeAdStart.sendsRequest
        else TradeAdStart.earlyReturn RoliError.RoliVerificationContainsInvalidCharacters)

/- ## Helper unfolding lemmas for explicit-length arrays -/

/-- Source `ItemDetails::from_raw` on an explicit 10-element array, written as
its bind chain (the name/acronym slots are read infallibly). -/
theorem ItemDetails.from_raw_ten (id : Nat) (c0 c1 c2 c3 c4 c5 c6 c7 c8 c9 : Code) :
    ItemDetails.from_raw id [c0, c1, c2, c3, c4, c5, c6, c7, c8, c9] =
      Outcome.bind c2.to_i64 (fun r =>
      Outcome.bind c3.to_i64 (fun vl =>
      Outcome.bind c4.to_i64 (fun v =>
      Outcome.bind c5.to_i64 (fun dc =>
      Outcome.bind (demandOfCode dc) (fun demand =>
      Outcome.bind c6.to_i64 (fun tc =>
      Outcome.bind (trendOfCode tc) (fun trend =>
      Outcome.bind c7.to_i64 (fun pc =>
      Outcome.bind (boolPairOfCode pc) (fun projected =>
      Outcome.bind c8.to_i64 (fun hc =>
      Outcome.bind (boolPairOfCode hc) (fun hyped =>
      Outcome.bind c9.to_i64 (fun rc =>
      Outcome.bind (boolPairOfCode rc) (fun rare =>
      Outcome.ok ⟨id, c0.display, (if c1.display = "" then none else some c1.display),
        asU64 r, decide (vl ≠ -1), asU64 v, demand, trend, projected, hyped, rare⟩))))))))))))) := rfl

/-- Source `Activity::from_raw` on an explicit 5-element array, written as its
bind chain. -/
theorem Activity.from_raw_five (c0 c1 c2 c3 c4 : Code) :
    Activity.from_raw [c0, c1, c2, c3, c4] =
      Outcome.bind c1.to_i64 (fun d =>
      Outcome.bind c0.to_i64 (fun t =>
      Outcome.bind c2.to_i64 (fun i =>
      if d == 0 then
        Outcome.bind c4.to_i64 (fun p =>
          Outcome.ok (Activity.PriceUpdate ⟨asU64 t, asU64 i, asU64 p⟩))
      else
        Outcome.bind c4.to_i64 (fun r =>
          Outcome.ok (Activity.RapUpdate ⟨asU64 t, asU64 i, asU64 r⟩))))) := rfl

/-- Source `Sale::from_raw` on an explicit 6-element array, written as its bind
chain. -/
theorem Sale.from_raw_six (c0 c1 c2 c3 c4 c5 : Code) :
    Sale.from_raw [c0, c1, c2, c3, c4, c5] =
      Outcome.bind c1.to_i64 (fun a =>
      if asU64 a ≠ 1 then Outcome.err RoliError.MalformedResponse
      else
        Outcome.bind c0.to_i64 (fun t =>
        Outcome.bind c2.to_i64 (fun i =>
        Outcome.bind c3.to_i64 (fun o =>
        Outcome.bind c4.to_i64 (fun n =>
        Outcome.bind c5.to_i64 (fun s =>
        Outcome.ok ⟨asU64 i, asU64 o, asU64 n, calculate_sale_price (asU64 o) (asU64 n),
          asU64 s, asU64 t⟩)))))) := rfl

/- ## Claim theorems -/

/-- C1: The claim says every positional decoder rejects wrong-arity
arrays with `MalformedResponse`.  This holds for Activity, Sale,
GroupSearchResult and PlayerSearchResult, but `ItemDetails::from_raw`
and the `games_list` entry decoder perform no arity check at all: on an
array shorter than their arity they panic (index out of bounds), and
`ItemDetails::from_raw` decodes an 11-slot array successfully, ignoring
the extra slot. -/
theorem positional_arity_bug_eval :
    ItemDetails.from_raw 123 ([] : List Code) = Outcome.panic ∧
    ItemDetails.from_raw 123 [Code.Str "Test item name", Code.Str "TI", Code.Integer 100,
        Code.Integer 1, Code.Integer 200, Code.Integer 3, Code.Integer 4, Code.Integer 1,
        Code.Integer 1, Code.Integer 1, Code.Integer 7] =
      Outcome.ok ⟨123, "Test item name", some "TI", 100, true, 200, Demand.High,
        Trend.Fluctuating, true, true, true⟩ ∧
    gameDecodeEntry "1" ([] : List Code) = Outcome.panic ∧
    Activity.from_raw [Code.Integer 1678939600, Code.Integer 0, Code.Str "3016210752",
        Code.Integer 0] = Outcome.err RoliError.MalformedResponse ∧
    Sale.from_raw [Code.Integer 1679978239, Code.Integer 1, Code.Integer 327318670,
        Code.Integer 4272, Code.Integer 4314] = Outcome.err RoliError.MalformedResponse ∧
    GroupSearchResult.from_raw [Code.Integer 4843918, Code.Str "Tetra Games",
        Code.Integer 1630643337, Code.Integer 1, Code.Integer 0, Code.Integer 3666006] =
      Outcome.err RoliError.MalformedResponse ∧
    PlayerSearchResult.from_raw ([] : List Code) = Outcome.err RoliError.MalformedResponse ∧
    PlayerSearchResult.from_raw [Code.Integer 1, Code.Str "a", Code.Integer 0, Code.Integer 0] =
      Outcome.err RoliError.MalformedResponse := by
  decide

/-- C2: The claim says every endpoint maps 429 to `TooManyRequests`,
500 to `InternalServerError`, everything unhandled to
`UnidentifiedStatusCode`, and never panics.  The status
match of `deals_activity` instead hits a literal `todo!()` (a panic) for every non-200
status, and `create_trade_ad` maps 500 to `UnidentifiedStatusCode 500`;
`all_item_details` does behave as claimed. -/
theorem status_code_mapping_bug_eval :
    dealsActivityHandle 429 ParseResult.failed = Outcome.panic ∧
    dealsActivityHandle 500 ParseResult.failed = Outcome.panic ∧
    dealsActivityHandle 404 ParseResult.failed = Outcome.panic ∧
    createTradeAdStatus 500 = Outcome.err (RoliError.UnidentifiedStatusCode 500) ∧
    allItemDetailsHandle 429 ParseResult.failed = Outcome.err RoliError.TooManyRequests ∧
    allItemDetailsHandle 500 ParseResult.failed = Outcome.err RoliError.InternalServerError ∧
    allItemDetailsHandle 404 ParseResult.failed =
      Outcome.err (RoliError.UnidentifiedStatusCode 404) := by
  decide

/-- C3: The claim says every endpoint whose envelope defines a `success`
flag returns `RequestReturnedUnsuccessful` when the flag is false.
`recent_sales` and `games_list` do, but `all_item_details`,
`deals_activity` and `recent_trade_ads` deserialize the flag and never
inspect it: with `success = false` they decode the payload and return
`Ok`. -/
theorem success_flag_bug_eval :
    allItemDetailsHandle 200 (ParseResult.ok ⟨false, 0, []⟩) = Outcome.ok [] ∧
    dealsActivityHandle 200 (ParseResult.ok ⟨false, []⟩) = Outcome.ok [] ∧
    recentTradeAdsHandle 200 (ParseResult.ok ⟨false, 0, []⟩) = Outcome.ok [] ∧
    recentSalesHandle 200 (ParseResult.ok ⟨false, [], 0⟩) =
      Outcome.err RoliError.RequestReturnedUnsuccessful ∧
    gamesListHandle 200 (ParseResult.ok ⟨false, 0, []⟩) =
      Outcome.err RoliError.RequestReturnedUnsuccessful := by
  decide

/-- C4 counterexample: the claim says the `valued` slot must be exactly
1 or -1, any other code failing the record.  In the source `valued` is
decoded as `!= -1`: with code 0 in the `valued` slot the record decodes
successfully with `valued = true`. -/
theorem valued_slot_zero_accepted :
    ItemDetails.from_raw 123 [Code.Str "Test item name", Code.Str "TI", Code.Integer 100,
        Code.Integer 0, Code.Integer 200, Code.Integer 3, Code.Integer 4, Code.Integer 1,
        Code.Integer 1, Code.Integer 1] =
      Outcome.ok ⟨123, "Test item name", some "TI", 100, true, 200, Demand.High,
        Trend.Fluctuating, true, true, true⟩ := by
  decide

/-- C5 counterexample: the claim says the derived sale price is required
to be representable as a non-negative integer.  With `old_rap = 2`,
`new_rap = 1` the signed formula gives `10 * (1 - 2) + 2 = -8 < 0`, yet
decoding succeeds, storing the twos-complement wraparound
`2^64 - 8`. -/
theorem sale_price_negative_wraps :
    Sale.from_raw [Code.Integer 1679978239, Code.Integer 1, Code.Integer 327318670,
        Code.Integer 2, Code.Integer 1, Code.Integer 4991002] =
      Outcome.ok ⟨327318670, 2, 1, 18446744073709551608, 4991002, 1679978239⟩ ∧
    (10 * ((1 : Int) - 2) + 2 < 0) ∧ (18446744073709551608 : Int) ≠ 10 * ((1 : Int) - 2) + 2 := by
  refine ⟨by decide, by norm_num, by norm_num⟩

/- ## Arithmetic helpers -/

/-- Numeric value of the 64-bit power used by the casts. -/
theorem pow64I : (2 : Int) ^ 64 = 18446744073709551616 := by norm_num

/-- Numeric value of the 63-bit power used by the casts. -/
theorem pow63I : (2 : Int) ^ 63 = 9223372036854775808 := by norm_num

/-- Casting a negative in-range `i64` value to `u64` adds `2^64`. -/
theorem asU64_neg (v : Int) (h1 : -(2 ^ 63) ≤ v) (h2 : v < 0) :
    asU64 v = (2 ^ 64 + v).toNat := by
  simp only [asU64, pow64I, pow63I] at *
  omega

/-- Casting a non-negative in-range value to `u64` is the identity. -/
theorem asU64_nonneg (v : Int) (h1 : 0 ≤ v) (h2 : v < 2 ^ 64) : asU64 v = v.toNat := by
  simp only [asU64, pow64I] at *
  omega

/-- C4 (amended): projected, hyped and rare require exactly the codes 1
or -1 and fail the record otherwise, but the `valued` slot is decoded as
`code != -1`: every parseable integer other than -1 yields
`valued = true` and only -1 yields `valued = false`, never failing. -/
theorem bool_pair_decoding_amended :
    (boolPairOfCode 1 = Outcome.ok true) ∧
    (boolPairOfCode (-1) = Outcome.ok false) ∧
    (∀ v : Int, v ≠ 1 → v ≠ -1 →
      ItemDetails.from_raw 123 [Code.Str "Test item name", Code.Str "TI", Code.Integer 100,
        Code.Integer 1, Code.Integer 200, Code.Integer 3, Code.Integer 4, Code.Integer v,
        Code.Integer 1, Code.Integer 1] = Outcome.err RoliError.MalformedResponse) ∧
    (∀ v : Int, v ≠ -1 →
      ItemDetails.from_raw 123 [Code.Str "Test item name", Code.Str "TI", Code.Integer 100,
        Code.Integer v, Code.Integer 200, Code.Integer 3, Code.Integer 4, Code.Integer 1,
        Code.Integer 1, Code.Integer 1] =
      Outcome.ok ⟨123, "Test item name", some "TI", 100, true, 200, Demand.High,
        Trend.Fluctuating, true, true, true⟩) ∧
    (ItemDetails.from_raw 123 [Code.Str "Test item name", Code.Str "TI", Code.Integer 100,
        Code.Integer (-1), Code.Integer 200, Code.Integer 3, Code.Integer 4, Code.Integer 1,
        Code.Integer 1, Code.Integer 1] =
      Outcome.ok ⟨123, "Test item name", some "TI", 100, false, 200, Demand.High,
        Trend.Fluctuating, true, true, true⟩) := by
  refine ⟨by decide, by decide, ?_, ?_, by decide⟩
  · intro v h1 h2
    rw [ItemDetails.from_raw_ten]
    simp [Code.to_i64, Code.display, demandOfCode, trendOfCode, boolPairOfCode, h1, h2]
  · intro v h
    rw [ItemDetails.from_raw_ten]
    simp [Code.to_i64, Code.display, demandOfCode, trendOfCode, boolPairOfCode, h]
    constructor
    · decide
    · decide

/-- Witness for the amended C4 theorem at the codes 5 (projected slot,
rejected) and 0 (valued slot, accepted as true). -/
theorem bool_pair_decoding_amended_witness :
    ItemDetails.from_raw 123 [Code.Str "Test item name", Code.Str "TI", Code.Integer 100,
      Code.Integer 1, Code.Integer 200, Code.Integer 3, Code.Integer 4, Code.Integer 5,
      Code.Integer 1, Code.Integer 1] = Outcome.err RoliError.MalformedResponse ∧
    ItemDetails.from_raw 123 [Code.Str "Test item name", Code.Str "TI", Code.Integer 100,
      Code.Integer 0, Code.Integer 200, Code.Integer 3, Code.Integer 4, Code.Integer 1,
      Code.Integer 1, Code.Integer 1] =
      Outcome.ok ⟨123, "Test item name", some "TI", 100, true, 200, Demand.High,
        Trend.Fluctuating, true, true, true⟩ :=
  ⟨bool_pair_decoding_amended.2.2.1 5 (by norm_num) (by norm_num),
   bool_pair_decoding_amended.2.2.2.1 0 (by norm_num)⟩

/-- C5 (amended): the derived sale price equals the new rap when the old
rap is zero, and otherwise equals the signed expression
`10 * (new - old) + old` reduced modulo `2^64` into an unsigned value; a
negative expression wraps instead of being rejected.  The documented
example 4272/4314 gives 4692. -/
theorem sale_price_formula_amended :
    (∀ old_rap new_rap : Nat, old_rap < 2 ^ 64 → new_rap < 2 ^ 64 →
      calculate_sale_price old_rap new_rap =
        if old_rap = 0 then new_rap
        else ((10 * ((new_rap : Int) - old_rap) + old_rap) % 2 ^ 64).toNat) ∧
    calculate_sale_price 4272 4314 = 4692 := by
  constructor
  · intro o n ho hn
    simp only [calculate_sale_price, wrapI64, toI64ofU64, asU64, pow64I, pow63I] at *
    split_ifs <;> omega
  · decide

/-- Witness for the amended C5 theorem at old rap 2 and new rap 1. -/
theorem sale_price_formula_amended_witness :
    calculate_sale_price 2 1 = ((10 * ((1 : Int) - 2) + 2) % 2 ^ 64).toNat := by
  have h := sale_price_formula_amended.1 2 1 (by norm_num) (by norm_num)
  simpa using h

/-- C6: on a 5-slot activity array whose slots all convert to integers,
a discriminator (slot 2, 0-based index 1) equal to 0 yields the
PriceUpdate variant and any other discriminator yields the RapUpdate
variant; the timestamp comes from slot 1, the item id from slot 3, and
the price or rap from slot 5. -/
theorem activity_discriminator_dispatch (c0 c1 c2 c3 c4 : Code) (v0 v1 v2 v3 v4 : Int)
    (h0 : c0.to_i64 = Outcome.ok v0) (h1 : c1.to_i64 = Outcome.ok v1)
    (h2 : c2.to_i64 = Outcome.ok v2) (_h3 : c3.to_i64 = Outcome.ok v3)
    (h4 : c4.to_i64 = Outcome.ok v4) :
    Activity.from_raw [c0, c1, c2, c3, c4] =
      if v1 = 0 then Outcome.ok (Activity.PriceUpdate ⟨asU64 v0, asU64 v2, asU64 v4⟩)
      else Outcome.ok (Activity.RapUpdate ⟨asU64 v0, asU64 v2, asU64 v4⟩) := by
  rw [Activity.from_raw_five, h0, h1, h2, h4]
  by_cases h : v1 = 0 <;> simp [h]

/-- Witness for C6 at the documented scenario-C element, in both
discriminator cases. -/
theorem activity_discriminator_dispatch_witness :
    Activity.from_raw [Code.Integer 1678939600, Code.Integer 0, Code.Str "3016210752",
        Code.Integer 0, Code.Integer 108] =
      Outcome.ok (Activity.PriceUpdate ⟨1678939600, 3016210752, 108⟩) ∧
    Activity.from_raw [Code.Integer 1678939600, Code.Integer 1, Code.Str "3016210752",
        Code.Integer 0, Code.Integer 108] =
      Outcome.ok (Activity.RapUpdate ⟨1678939600, 3016210752, 108⟩) := by
  constructor
  · have h := activity_discriminator_dispatch (Code.Integer 1678939600) (Code.Integer 0)
      (Code.Str "3016210752") (Code.Integer 0) (Code.Integer 108)
      1678939600 0 3016210752 0 108 rfl rfl (by decide) rfl rfl
    rw [h]
    decide
  · have h := activity_discriminator_dispatch (Code.Integer 1678939600) (Code.Integer 1)
      (Code.Str "3016210752") (Code.Integer 0) (Code.Integer 108)
      1678939600 1 3016210752 0 108 rfl rfl (by decide) rfl rfl
    rw [h]
    decide

/-- Demand codes outside the table fail with `MalformedResponse`. -/
theorem demandOfCode_out (d : Int) (h : d < -1 ∨ 4 < d) :
    demandOfCode d = Outcome.err RoliError.MalformedResponse := by
  simp only [demandOfCode]
  split_ifs <;> first | rfl | omega

/-- Trend codes outside the table fail with `MalformedResponse`. -/
theorem trendOfCode_out (t : Int) (h : t < -1 ∨ 4 < t) :
    trendOfCode t = Outcome.err RoliError.MalformedResponse := by
  simp only [trendOfCode]
  split_ifs <;> first | rfl | omega

/-- Request-tag codes outside 1-10 fail with `MalformedResponse`. -/
theorem requestTag_out (v : Nat) (h : v = 0 ∨ 10 < v) :
    RequestTag.try_from v = Outcome.err RoliError.MalformedResponse := by
  simp only [RequestTag.try_from]
  split_ifs <;> first | rfl | omega

/-- C7: the demand and trend tables map -1 and 0-4 bijectively onto
their six named variants, the request-tag table maps 1-10 bijectively
onto the ten RequestTag variants, and every code outside the tables
fails the enclosing record (ItemDetails or Request) with
`MalformedResponse`, with no fallback variant chosen. -/
theorem enum_code_tables_closed :
    (demandOfCode (-1) = Outcome.ok Demand.Unassigned ∧
     demandOfCode 0 = Outcome.ok Demand.Terrible ∧
     demandOfCode 1 = Outcome.ok Demand.Low ∧
     demandOfCode 2 = Outcome.ok Demand.Normal ∧
     demandOfCode 3 = Outcome.ok Demand.High ∧
     demandOfCode 4 = Outcome.ok Demand.Amazing) ∧
    (∀ d : Int, d < -1 ∨ 4 < d → demandOfCode d = Outcome.err RoliError.MalformedResponse) ∧
    (trendOfCode (-1) = Outcome.ok Trend.Unassigned ∧
     trendOfCode 0 = Outcome.ok Trend.Lowering ∧
     trendOfCode 1 = Outcome.ok Trend.Unstable ∧
     trendOfCode 2 = Outcome.ok Trend.Stable ∧
     trendOfCode 3 = Outcome.ok Trend.Raising ∧
     trendOfCode 4 = Outcome.ok Trend.Fluctuating) ∧
    (∀ t : Int, t < -1 ∨ 4 < t → trendOfCode t = Outcome.err RoliError.MalformedResponse) ∧
    (RequestTag.try_from 1 = Outcome.ok RequestTag.Demand ∧
     RequestTag.try_from 2 = Outcome.ok RequestTag.Rares ∧
     RequestTag.try_from 3 = Outcome.ok RequestTag.Robux ∧
     RequestTag.try_from 4 = Outcome.ok RequestTag.Any ∧
     RequestTag.try_from 5 = Outcome.ok RequestTag.Upgrade ∧
     RequestTag.try_from 6 = Outcome.ok RequestTag.Downgrade ∧
     RequestTag.try_from 7 = Outcome.ok RequestTag.Rap ∧
     RequestTag.try_from 8 = Outcome.ok RequestTag.Wishlist ∧
     RequestTag.try_from 9 = Outcome.ok RequestTag.Projecteds ∧
     RequestTag.try_from 10 = Outcome.ok RequestTag.Adds) ∧
    (∀ v : Nat, v = 0 ∨ 10 < v → RequestTag.try_from v = Outcome.err RoliError.MalformedResponse) ∧
    (∀ d e : Int, -1 ≤ d → d ≤ 4 → -1 ≤ e → e ≤ 4 →
      demandOfCode d = demandOfCode e → d = e) ∧
    (∀ d e : Int, -1 ≤ d → d ≤ 4 → -1 ≤ e → e ≤ 4 →
      trendOfCode d = trendOfCode e → d = e) ∧
    (∀ v w : Nat, 1 ≤ v → v ≤ 10 → 1 ≤ w → w ≤ 10 →
      RequestTag.try_from v = RequestTag.try_from w → v = w) ∧
    (∀ d : Int, d < -1 ∨ 4 < d →
      ItemDetails.from_raw 123 [Code.Str "Test item name", Code.Str "TI", Code.Integer 100,
        Code.Integer 1, Code.Integer 200, Code.Integer d, Code.Integer 4, Code.Integer 1,
        Code.Integer 1, Code.Integer 1] = Outcome.err RoliError.MalformedResponse) ∧
    (∀ t : Int, t < -1 ∨ 4 < t →
      ItemDetails.from_raw 123 [Code.Str "Test item name", Code.Str "TI", Code.Integer 100,
        Code.Integer 1, Code.Integer 200, Code.Integer 3, Code.Integer t, Code.Integer 1,
        Code.Integer 1, Code.Integer 1] = Outcome.err RoliError.MalformedResponse) ∧
    (∀ v : Nat, v = 0 ∨ 10 < v →
      Request.try_from ⟨[v], []⟩ = Outcome.err RoliError.MalformedResponse) := by
  refine ⟨by decide, demandOfCode_out, by decide, trendOfCode_out, by decide, requestTag_out,
    ?_, ?_, ?_, ?_, ?_, ?_⟩
  · intro d e hd1 hd2 he1 he2
    interval_cases d <;> interval_cases e <;> decide
  · intro d e hd1 hd2 he1 he2
    interval_cases d <;> interval_cases e <;> decide
  · intro v w hv1 hv2 hw1 hw2
    interval_cases v <;> interval_cases w <;> decide
  · intro d h
    rw [ItemDetails.from_raw_ten]
    simp [Code.to_i64, Code.display, demandOfCode_out d h]
  · intro t h
    rw [ItemDetails.from_raw_ten]
    simp [Code.to_i64, Code.display, demandOfCode, trendOfCode_out t h]
  · intro v h
    simp [Request.try_from, mapOutcome, requestTag_out v h]

/-- Witness for C7 at the out-of-table codes 5 (demand), -2 (trend) and
11 (request tag), and at the in-table pair 1/1 for injectivity. -/
theorem enum_code_tables_closed_witness :
    demandOfCode 5 = Outcome.err RoliError.MalformedResponse ∧
    trendOfCode (-2) = Outcome.err RoliError.MalformedResponse ∧
    RequestTag.try_from 11 = Outcome.err RoliError.MalformedResponse ∧
    Request.try_from ⟨[11], []⟩ = Outcome.err RoliError.MalformedResponse ∧
    ItemDetails.from_raw 123 [Code.Str "Test item name", Code.Str "TI", Code.Integer 100,
      Code.Integer 1, Code.Integer 200, Code.Integer 5, Code.Integer 4, Code.Integer 1,
      Code.Integer 1, Code.Integer 1] = Outcome.err RoliError.MalformedResponse ∧
    (1 : Int) = 1 :=
  ⟨enum_code_tables_closed.2.1 5 (by norm_num),
   enum_code_tables_closed.2.2.2.1 (-2) (by norm_num),
   enum_code_tables_closed.2.2.2.2.2.1 11 (by norm_num),
   enum_code_tables_closed.2.2.2.2.2.2.2.2.2.2.2 11 (by norm_num),
   enum_code_tables_closed.2.2.2.2.2.2.2.2.2.1 5 (by norm_num),
   enum_code_tables_closed.2.2.2.2.2.2.1 1 1 (by norm_num) (by norm_num) (by norm_num)
     (by norm_num) rfl⟩

/- ## Lemmas about the checked digit loops -/

/-- A digit character has code point between 48 and 57. -/
theorem isDig_bounds (c : Char) (h : isDig c = true) :
    48 ≤ (c.toNat : Int) ∧ (c.toNat : Int) ≤ 57 := by
  simp only [isDig, Bool.and_eq_true, decide_eq_true_eq] at h
  exact ⟨by exact_mod_cast h.1, by exact_mod_cast h.2⟩

/-- Folding digits onto a non-negative accumulator never decreases it. -/
theorem digitsFold_mono (cs : List Char) :
    ∀ acc : Int, (∀ c ∈ cs, isDig c = true) → 0 ≤ acc →
    acc ≤ cs.foldl (fun a c => 10 * a + ((c.toNat : Int) - 48)) acc := by
  induction cs with
  | nil => intro acc _ _; simp
  | cons c cs ih =>
    intro acc hdig hacc
    simp only [List.foldl_cons]
    have hc := isDig_bounds c (hdig c (by simp))
    have step : acc ≤ 10 * acc + ((c.toNat : Int) - 48) := by omega
    exact le_trans step (ih _ (fun x hx => hdig x (by simp [hx])) (by omega))

/-- On an all-digit list the checked loop succeeds exactly when the
unchecked folded value stays within the bound, returning that value. -/
theorem parseDigLoop_spec (bound : Int) (cs : List Char) :
    ∀ acc : Int, 0 ≤ acc → acc ≤ bound → (∀ c ∈ cs, isDig c = true) →
    (cs.foldl (fun a c => 10 * a + ((c.toNat : Int) - 48)) acc ≤ bound →
      parseDigLoop bound cs acc =
        some (cs.foldl (fun a c => 10 * a + ((c.toNat : Int) - 48)) acc)) ∧
    (bound < cs.foldl (fun a c => 10 * a + ((c.toNat : Int) - 48)) acc →
      parseDigLoop bound cs acc = none) := by
  induction cs with
  | nil =>
    intro acc hacc hb _
    refine ⟨fun _ => rfl, fun h => ?_⟩
    simp only [List.foldl_nil] at h
    omega
  | cons c cs ih =>
    intro acc hacc hb hdig
    have hc : isDig c = true := hdig c (by simp)
    have hcb := isDig_bounds c hc
    have hrest : ∀ x ∈ cs, isDig x = true := fun x hx => hdig x (by simp [hx])
    simp only [parseDigLoop, hc, if_true, List.foldl_cons]
    set a : Int := 10 * acc + ((c.toNat : Int) - 48) with ha
    by_cases hov : bound < a
    · rw [if_pos hov]
      have hm := digitsFold_mono cs a hrest (by omega)
      exact ⟨fun h => by omega, fun _ => rfl⟩
    · rw [if_neg hov]
      exact ih a (by omega) (by omega) hrest

/-- A list containing a non-digit makes the checked loop fail. -/
theorem parseDigLoop_baddig (bound : Int) (cs : List Char) :
    ∀ acc : Int, (¬ ∀ c ∈ cs, isDig c = true) → parseDigLoop bound cs acc = none := by
  induction cs with
  | nil => intro acc h; exact absurd (by simp) h
  | cons c cs ih =>
    intro acc h
    by_cases hc : isDig c = true
    · have hnot : ¬ ∀ x ∈ cs, isDig x = true := by
        intro hall
        apply h
        intro x hx
        rcases List.mem_cons.mp hx with hx1 | hx2
        · rw [hx1]; exact hc
        · exact hall x hx2
      simp only [parseDigLoop, hc, if_true]
      by_cases hov : bound < 10 * acc + ((c.toNat : Int) - 48)
      · rw [if_pos hov]
      · rw [if_neg hov]
        exact ih _ hnot
    · simp only [parseDigLoop]
      rw [if_neg hc]

/-- The negative loop is the positive loop on the negated accumulator
with bound `-I64MIN`, with its result negated. -/
theorem parseNegLoop_eq (cs : List Char) :
    ∀ acc : Int, parseNegLoop cs acc =
      Option.map (fun x => -x) (parseDigLoop (-I64MIN) cs (-acc)) := by
  induction cs with
  | nil => intro acc; simp [parseNegLoop, parseDigLoop]
  | cons c cs ih =>
    intro acc
    by_cases hc : isDig c = true
    · simp only [parseNegLoop, parseDigLoop, hc, if_true]
      have hcond : (10 * acc - ((c.toNat : Int) - 48) < I64MIN) ↔
          (-I64MIN < 10 * (-acc) + ((c.toNat : Int) - 48)) := by
        simp only [I64MIN]
        omega
      by_cases hov : 10 * acc - ((c.toNat : Int) - 48) < I64MIN
      · rw [if_pos hov, if_pos (hcond.mp hov)]
        rfl
      · rw [if_neg hov, if_neg (fun hx => hov (hcond.mpr hx))]
        rw [ih]
        have harg : -(10 * acc - ((c.toNat : Int) - 48)) =
            10 * (-acc) + ((c.toNat : Int) - 48) := by ring
        rw [harg]
    · simp only [parseNegLoop, parseDigLoop]
      rw [if_neg hc, if_neg hc]
      rfl

/-- Unfolding of the all-digit test. -/
theorem allDigits_iff (cs : List Char) :
    allDigits cs = true ↔ cs ≠ [] ∧ ∀ c ∈ cs, isDig c = true := by
  simp [allDigits, List.isEmpty_iff, List.all_eq_true]

/-- The positive bound is non-negative. -/
theorem I64MAX_nonneg : (0 : Int) ≤ I64MAX := by
  simp only [I64MAX]
  omega

/-- The negated negative bound is non-negative. -/
theorem negI64MIN_nonneg : (0 : Int) ≤ -I64MIN := by
  simp only [I64MIN]
  omega

/-- Valid `i64` strings parse to their denoted value. -/
theorem parseI64_valid (s : String) (h : validI64String s = true) :
    parseI64 s = some (i64StringVal s) := by
  cases hs : s.data with
  | nil =>
    simp only [validI64String, hs] at h
    exact absurd h (by simp)
  | cons c rest =>
    simp only [validI64String, hs] at h
    simp only [parseI64, i64StringVal, hs]
    by_cases hp : c = '+'
    · rw [if_pos hp] at h ⊢
      rw [if_pos hp]
      simp only [Bool.and_eq_true, decide_eq_true_eq, allDigits_iff] at h
      obtain ⟨⟨hne, hdig⟩, hle⟩ := h
      rw [if_neg hne]
      exact (parseDigLoop_spec I64MAX rest 0 le_rfl I64MAX_nonneg hdig).1 hle
    · rw [if_neg hp] at h ⊢
      rw [if_neg hp]
      by_cases hm : c = '-'
      · rw [if_pos hm] at h ⊢
        rw [if_pos hm]
        simp only [Bool.and_eq_true, decide_eq_true_eq, allDigits_iff] at h
        obtain ⟨⟨hne, hdig⟩, hge⟩ := h
        rw [if_neg hne]
        rw [parseNegLoop_eq rest 0, neg_zero]
        have hle : digitsVal rest ≤ -I64MIN := by omega
        rw [(parseDigLoop_spec (-I64MIN) rest 0 le_rfl negI64MIN_nonneg hdig).1 hle]
        rfl
      · rw [if_neg hm] at h ⊢
        rw [if_neg hm]
        simp only [Bool.and_eq_true, decide_eq_true_eq, allDigits_iff] at h
        obtain ⟨⟨hne, hdig⟩, hle⟩ := h
        exact (parseDigLoop_spec I64MAX (c :: rest) 0 le_rfl I64MAX_nonneg hdig).1 hle

/-- Invalid `i64` strings fail to parse. -/
theorem parseI64_invalid (s : String) (h : validI64String s = false) :
    parseI64 s = none := by
  cases hs : s.data with
  | nil => simp only [parseI64, hs]
  | cons c rest =>
    simp only [validI64String, hs] at h
    simp only [parseI64, hs]
    by_cases hp : c = '+'
    · rw [if_pos hp] at h ⊢
      by_cases hne : rest = []
      · rw [if_pos hne]
      · rw [if_neg hne]
        rw [Bool.eq_false_iff] at h
        simp only [Ne, Bool.and_eq_true, decide_eq_true_eq, allDigits_iff] at h
        by_cases hdig : ∀ x ∈ rest, isDig x = true
        · have hov : I64MAX < digitsVal rest := by
            by_contra hcon
            exact h ⟨⟨hne, hdig⟩, by omega⟩
          exact (parseDigLoop_spec I64MAX rest 0 le_rfl I64MAX_nonneg hdig).2 hov
        · exact parseDigLoop_baddig I64MAX rest 0 hdig
    · rw [if_neg hp] at h ⊢
      by_cases hm : c = '-'
      · rw [if_pos hm] at h ⊢
        by_cases hne : rest = []
        · rw [if_pos hne]
        · rw [if_neg hne]
          rw [Bool.eq_false_iff] at h
          simp only [Ne, Bool.and_eq_true, decide_eq_true_eq, allDigits_iff] at h
          rw [parseNegLoop_eq rest 0, neg_zero]
          by_cases hdig : ∀ x ∈ rest, isDig x = true
          · have hov : -I64MIN < digitsVal rest := by
              by_contra hcon
              exact h ⟨⟨hne, hdig⟩, by omega⟩
            rw [(parseDigLoop_spec (-I64MIN) rest 0 le_rfl negI64MIN_nonneg hdig).2 hov]
            rfl
          · rw [parseDigLoop_baddig (-I64MIN) rest 0 hdig]
            rfl
      · rw [if_neg hm] at h ⊢
        rw [Bool.eq_false_iff] at h
        simp only [Ne, Bool.and_eq_true, decide_eq_true_eq, allDigits_iff] at h
        by_cases hdig : ∀ x ∈ c :: rest, isDig x = true
        · have hov : I64MAX < digitsVal (c :: rest) := by
            by_contra hcon
            exact h ⟨⟨by simp, hdig⟩, by omega⟩
          exact (parseDigLoop_spec I64MAX (c :: rest) 0 le_rfl I64MAX_nonneg hdig).2 hov
        · exact parseDigLoop_baddig I64MAX (c :: rest) 0 hdig

/-- C8: the as-integer conversion of the ambiguous scalar returns an
integer-typed scalar unchanged, returns the denoted numeric value for a
string holding a valid base-10 signed 64-bit integer, and fails with
`MalformedResponse` for any other string. -/
theorem code_to_i64_roundtrip :
    (∀ x : Int, Code.to_i64 (Code.Integer x) = Outcome.ok x) ∧
    (∀ s : String, validI64String s = true →
      Code.to_i64 (Code.Str s) = Outcome.ok (i64StringVal s)) ∧
    (∀ s : String, validI64String s = false →
      Code.to_i64 (Code.Str s) = Outcome.err RoliError.MalformedResponse) := by
  refine ⟨fun x => rfl, fun s h => ?_, fun s h => ?_⟩
  · rw [Code.to_i64, parseI64_valid s h]
  · rw [Code.to_i64, parseI64_invalid s h]

/-- Witness for C8 at a numeric string, a non-numeric string and a
native integer. -/
theorem code_to_i64_roundtrip_witness :
    Code.to_i64 (Code.Integer 42) = Outcome.ok 42 ∧
    Code.to_i64 (Code.Str "3016210752") = Outcome.ok (i64StringVal "3016210752") ∧
    Code.to_i64 (Code.Str "invalid") = Outcome.err RoliError.MalformedResponse ∧
    i64StringVal "3016210752" = 3016210752 :=
  ⟨code_to_i64_roundtrip.1 42,
   code_to_i64_roundtrip.2.1 "3016210752" (by decide),
   code_to_i64_roundtrip.2.2 "invalid" (by decide),
   by decide⟩

/-- C9: a negative in-range `i64` wire value destined for any of the
eight unsigned fields (activity timestamp, item id, price and rap; sale
timestamp, item id, old rap, new rap and sale id; item rap and value)
is accepted, not rejected: the decode succeeds and the field holds the
twos-complement reinterpretation `2^64 + v`. -/
theorem negative_codes_wrap_unsigned (v : Int) (h1 : -(2 ^ 63) ≤ v) (h2 : v < 0) :
    Activity.from_raw [Code.Integer v, Code.Integer 0, Code.Integer v, Code.Integer 0,
        Code.Integer v] =
      Outcome.ok (Activity.PriceUpdate
        ⟨(2 ^ 64 + v).toNat, (2 ^ 64 + v).toNat, (2 ^ 64 + v).toNat⟩) ∧
    Activity.from_raw [Code.Integer v, Code.Integer 1, Code.Integer v, Code.Integer 0,
        Code.Integer v] =
      Outcome.ok (Activity.RapUpdate
        ⟨(2 ^ 64 + v).toNat, (2 ^ 64 + v).toNat, (2 ^ 64 + v).toNat⟩) ∧
    (∃ s : Sale, Sale.from_raw [Code.Integer v, Code.Integer 1, Code.Integer v,
        Code.Integer v, Code.Integer v, Code.Integer v] = Outcome.ok s ∧
      s.timestamp = (2 ^ 64 + v).toNat ∧ s.item_id = (2 ^ 64 + v).toNat ∧
      s.old_rap = (2 ^ 64 + v).toNat ∧ s.new_rap = (2 ^ 64 + v).toNat ∧
      s.sale_id = (2 ^ 64 + v).toNat) ∧
    (∃ it : ItemDetails, ItemDetails.from_raw 123 [Code.Str "Test item name", Code.Str "TI",
        Code.Integer v, Code.Integer 1, Code.Integer v, Code.Integer 3, Code.Integer 4,
        Code.Integer 1, Code.Integer 1, Code.Integer 1] = Outcome.ok it ∧
      it.rap = (2 ^ 64 + v).toNat ∧ it.value = (2 ^ 64 + v).toNat) := by
  refine ⟨?_, ?_, ?_, ?_⟩
  · rw [Activity.from_raw_five]
    simp [Code.to_i64, asU64_neg v h1 h2]
  · rw [Activity.from_raw_five]
    simp [Code.to_i64, asU64_neg v h1 h2]
  · refine ⟨⟨asU64 v, asU64 v, asU64 v,
      calculate_sale_price (asU64 v) (asU64 v), asU64 v, asU64 v⟩, ?_, ?_, ?_, ?_, ?_, ?_⟩
    · rw [Sale.from_raw_six]
      simp [Code.to_i64]
      rw [asU64_nonneg 1 (by norm_num) (by norm_num)]
      simp
    · exact asU64_neg v h1 h2
    · exact asU64_neg v h1 h2
    · exact asU64_neg v h1 h2
    · exact asU64_neg v h1 h2
    · exact asU64_neg v h1 h2
  · refine ⟨⟨123, "Test item name", some "TI", asU64 v, true, asU64 v, Demand.High,
      Trend.Fluctuating, true, true, true⟩, ?_, ?_, ?_⟩
    · rw [ItemDetails.from_raw_ten]
      simp [Code.to_i64, Code.display, demandOfCode, trendOfCode, boolPairOfCode]
    · exact asU64_neg v h1 h2
    · exact asU64_neg v h1 h2

/-- Witness for C9 at the wire value -1, which becomes `2^64 - 1` in
every one of the timestamp, item id, price, rap, old rap, new rap and
sale id fields. -/
theorem negative_codes_wrap_unsigned_witness :
    Activity.from_raw [Code.Integer (-1), Code.Integer 0, Code.Integer (-1), Code.Integer 0,
        Code.Integer (-1)] =
      Outcome.ok (Activity.PriceUpdate ⟨(2 ^ 64 + (-1 : Int)).toNat,
        (2 ^ 64 + (-1 : Int)).toNat, (2 ^ 64 + (-1 : Int)).toNat⟩) ∧
    Activity.from_raw [Code.Integer (-1), Code.Integer 1, Code.Integer (-1), Code.Integer 0,
        Code.Integer (-1)] =
      Outcome.ok (Activity.RapUpdate ⟨(2 ^ 64 + (-1 : Int)).toNat,
        (2 ^ 64 + (-1 : Int)).toNat, (2 ^ 64 + (-1 : Int)).toNat⟩) ∧
    (∃ s : Sale, Sale.from_raw [Code.Integer (-1), Code.Integer 1, Code.Integer (-1),
        Code.Integer (-1), Code.Integer (-1), Code.Integer (-1)] = Outcome.ok s ∧
      s.timestamp = (2 ^ 64 + (-1 : Int)).toNat ∧ s.item_id = (2 ^ 64 + (-1 : Int)).toNat ∧
      s.old_rap = (2 ^ 64 + (-1 : Int)).toNat ∧ s.new_rap = (2 ^ 64 + (-1 : Int)).toNat ∧
      s.sale_id = (2 ^ 64 + (-1 : Int)).toNat) :=
  ⟨(negative_codes_wrap_unsigned (-1) (by norm_num) (by norm_num)).1,
   (negative_codes_wrap_unsigned (-1) (by norm_num) (by norm_num)).2.1,
   (negative_codes_wrap_unsigned (-1) (by norm_num) (by norm_num)).2.2.1⟩

/-- C10: with no verification token set, `create_trade_ad` returns
`RoliVerificationNotSet` before sending any request; with a token whose
bytes do not all form a valid header value it returns
`RoliVerificationContainsInvalidCharacters` before sending any request;
in both cases the client is returned unchanged. -/
theorem create_trade_ad_preflight (c : RClient) :
    (c.roli_verification = none →
      create_trade_ad_start c = (c, TradeAdStart.earlyReturn RoliError.RoliVerificationNotSet)) ∧
    (∀ rv : List Nat, c.roli_verification = some rv → rv.all headerValueByteValid = false →
      create_trade_ad_start c =
        (c, TradeAdStart.earlyReturn RoliError.RoliVerificationContainsInvalidCharacters)) ∧
    (create_trade_ad_start c).1 = c := by
  refine ⟨?_, ?_, rfl⟩
  · intro h
    simp [create_trade_ad_start, h]
  · intro rv h hv
    simp [create_trade_ad_start, h, List.all_append, hv]

/-- Witness for C10 with no token and with a token containing the
invalid byte 10. -/
theorem create_trade_ad_preflight_witness :
    create_trade_ad_start ⟨none⟩ =
      (⟨none⟩, TradeAdStart.earlyReturn RoliError.RoliVerificationNotSet) ∧
    create_trade_ad_start ⟨some [10]⟩ =
      (⟨some [10]⟩, TradeAdStart.earlyReturn
        RoliError.RoliVerificationContainsInvalidCharacters) :=
  ⟨(create_trade_ad_preflight ⟨none⟩).1 rfl,
   (create_trade_ad_preflight ⟨some [10]⟩).2.1 [10] rfl (by decide)⟩
